import Mathlib

/-!
Verification of `spotify-player`'s playback panel (`src/ui/playback.rs`).

The development shallowly embeds the panel's pure logic:
* the playback-window layout height (`split_rect_for_playback_window`, lines 571-602);
* the cover-image render state machine of `render_playback_window` (lines 81-127 and
  163-173), with screen clears recorded as the list of rectangles passed to
  `clear_area`;
* the protocol selection and error handling of `render_playback_cover_image`
  (lines 391-567), where the actual `viuer::print` escape-sequence write is
  abstracted by a boolean outcome parameter (its pixels are outside the model);
* the frame-buffer primitives `clear_area` (lines 188-200) and the skip-marking
  loop (lines 117-125), with `expect("invalid cell")` panics modelled as `none`;
* the progress ratio computation of `render_playback_progress_bar` (line 353),
  with the `f64` division embedded as an exact extended value (`nan`/`±inf`/
  rational); rounding of finite quotients cannot move a value across the
  clamp bounds, so membership of the clamped result in `[0,1]` is preserved
  exactly by this embedding;
* the format compiler `construct_playback_text` (lines 202-342), including the
  tokenizer implementing the regex `\{.*?\}|\n` (leftmost, lazy, `.` does not
  match a newline).
-/

namespace SpotifyPlayer

/-! ## Geometry (ratatui `Rect`, `u16` coordinates) -/

/-- Maximal `u16` value; ratatui's `Rect::right`/`Rect::bottom` use
`saturating_add` on `u16`. -/
def u16Max : Nat := 65535

/-- Axis-aligned terminal-cell rectangle (ratatui `Rect`, fields are `u16`). -/
structure Rect where
  x : Nat
  y : Nat
  width : Nat
  height : Nat
deriving DecidableEq, Repr

/-- Leftmost column (`Rect::left`). -/
def Rect.left (r : Rect) : Nat := r.x

/-- One past the rightmost column (`Rect::right`, `x.saturating_add(width)`). -/
def Rect.right (r : Rect) : Nat := min (r.x + r.width) u16Max

/-- Topmost row (`Rect::top`). -/
def Rect.top (r : Rect) : Nat := r.y

/-- One past the bottom row (`Rect::bottom`, `y.saturating_add(height)`). -/
def Rect.bottom (r : Rect) : Nat := min (r.y + r.height) u16Max

/-- Whether the rectangle contains the cell `(px, py)` (ratatui
`Rect::contains`, used by `Buffer::cell_mut`'s bounds check). -/
def Rect.containsPos (r : Rect) (px py : Nat) : Bool :=
  decide (r.left ≤ px) && decide (px < r.right) &&
  decide (r.top ≤ py) && decide (py < r.bottom)

/-! ## Image render state (`ImageRenderInfo` from `state`, used by this file) -/

/-- Session-owned cover-image render state: last URL, last target rectangle,
and whether the image is currently painted (`rendered`). -/
structure ImageRenderInfo where
  url : String
  render_area : Rect
  rendered : Bool
deriving DecidableEq, Repr

/-- Value of `ImageRenderInfo::default()`: empty URL, zero rectangle,
`rendered = false`. -/
def ImageRenderInfo.default : ImageRenderInfo := ⟨"", ⟨0, 0, 0, 0⟩, false⟩

/-! ## Protocol selection (`render_playback_cover_image`, lines 449-546) -/

/-- Environment signals read by the protocol auto-detection:
`TMUX` presence, `TERM_PROGRAM`, `TERM` and `GHOSTTY_RESOURCES_DIR` presence. -/
structure Env where
  tmux : Bool
  term_program : String
  term : String
  ghostty_resources : Bool
deriving DecidableEq, Repr

/-- The three protocol flags of the `viuer::Config` the code constructs
(`use_kitty`, `use_iterm`, `use_sixel`); all start out `false`.  When the
`sixel` feature is not compiled in, the `use_sixel` field does not exist in
the source and is therefore never set; the model keeps it constantly `false`
in that case. -/
structure ViuerFlags where
  use_kitty : Bool
  use_iterm : Bool
  use_sixel : Bool
deriving DecidableEq, Repr

/-- Whether `p` is a prefix of `s` (character lists). -/
def isPrefixList : List Char → List Char → Bool
  | [], _ => true
  | _ :: _, [] => false
  | p :: ps, c :: cs => p == c && isPrefixList ps cs

/-- Whether `pat` occurs as a contiguous run inside `s` (character lists). -/
def containsSub : List Char → List Char → Bool
  | [], pat => pat.isEmpty
  | s@(_ :: cs), pat => isPrefixList pat s || containsSub cs pat

/-- Substring test (Rust `str::contains` for the ASCII patterns used here). -/
def strContains (s pat : String) : Bool := containsSub s.data pat.data

/-- Rust `str::to_lowercase` for the ASCII protocol names compared here:
lowercase each character. -/
def toLowerStr (s : String) : String := String.mk (s.data.map Char.toLower)

/-- Sixel-capable terminal detection (lines 505-511): `TERM` contains one of
the known identifiers, or `TERM_PROGRAM` contains `wezterm`. -/
def supportsSixel (env : Env) : Bool :=
  strContains env.term "xterm" || strContains env.term "mlterm" ||
  strContains env.term "foot" || strContains env.term "wezterm" ||
  strContains env.term_program "wezterm" || strContains env.term "contour" ||
  strContains env.term "mintty"

/-- Ghostty detection (lines 520-522 and 536-538): exact `TERM_PROGRAM`
match, `TERM` substring, or `GHOSTTY_RESOURCES_DIR` set. -/
def isGhostty (env : Env) : Bool :=
  env.term_program == "ghostty" || strContains env.term "ghostty" ||
  env.ghostty_resources

/-- Environment-based auto-detection (lines 493-546), parameterized by whether
the `sixel` feature is compiled in (`sf`).  With sixel: a sixel-capable
terminal chooses sixel, else Ghostty or tmux chooses kitty, else no flag is
set.  Without sixel: Ghostty or tmux chooses kitty, else no flag is set. -/
def autoDetect (sf : Bool) (env : Env) : ViuerFlags :=
  if sf then
    if supportsSixel env then ⟨false, false, true⟩
    else if isGhostty env || env.tmux then ⟨true, false, false⟩
    else ⟨false, false, false⟩
  else
    if isGhostty env || env.tmux then ⟨true, false, false⟩
    else ⟨false, false, false⟩

/-- Protocol selection (lines 449-546).  A configured override is lowercased
and matched against `"kitty"`, `"iterm"`, and (only when the `sixel` feature
is compiled in) `"sixel"`; any other value reaches the wildcard arm, which
defaults to sixel when the feature is compiled in and to kitty otherwise.
An absent override auto-detects from the environment. -/
def selectProtocol (sf : Bool) (override : Option String) (env : Env) : ViuerFlags :=
  match override with
  | some p =>
    let pl := toLowerStr p
    if pl = "kitty" then ⟨true, false, false⟩
    else if pl = "iterm" then ⟨false, true, false⟩
    else if sf ∧ pl = "sixel" then ⟨false, false, true⟩
    else if sf then ⟨false, false, true⟩
    else ⟨true, false, false⟩
  | none => autoDetect sf env

/-! ## Cover-image paint attempt (`render_playback_cover_image`, lines 391-567) -/

/-- Observable outcome of one call to `render_playback_cover_image`:
the image state afterwards, whether the function returned `Ok`, whether
`viuer::print` was invoked, whether a warning was logged, the protocol flags
of the constructed `viuer::Config`, and whether `VIUER_DISABLE_BLOCKS` was
set for this call. -/
structure PaintOutcome where
  info : ImageRenderInfo
  ok : Bool
  paintInvoked : Bool
  warnLogged : Bool
  flags : ViuerFlags
  disableBlocks : Bool
deriving DecidableEq, Repr

/-- One call to `render_playback_cover_image` (lines 391-567).
`tempOk` is the outcome of `remove_temp_files` (its failure propagates with
context, line 408); `cached` is whether the decoded image is present in the
cache for the tracked URL (line 411); `paintOk` is the outcome of the
`viuer::print` escape-sequence write (line 555), which is outside the model.
The cropping and scaling of the cached image (lines 414-447) only affect the
painted pixels, which the `paintOk` abstraction covers.  On paint failure a
warning is logged (line 558) and the error propagates (line 561) before
`rendered` is set, so the tracked state is unchanged; `rendered := true`
happens only after a successful paint (line 563). -/
def render_playback_cover_image (sf tempOk cached : Bool) (override : Option String)
    (env : Env) (paintOk : Bool) (info : ImageRenderInfo) : PaintOutcome :=
  if tempOk = false then
    { info := info, ok := false, paintInvoked := false, warnLogged := false,
      flags := ⟨false, false, false⟩, disableBlocks := false }
  else if cached = false then
    { info := info, ok := true, paintInvoked := false, warnLogged := false,
      flags := ⟨false, false, false⟩, disableBlocks := false }
  else
    let flags := selectProtocol sf override env
    let disableBlocks := flags.use_kitty || flags.use_iterm
    if paintOk then
      { info := { info with rendered := true }, ok := true, paintInvoked := true,
        warnLogged := false, flags := flags, disableBlocks := disableBlocks }
    else
      { info := info, ok := false, paintInvoked := true, warnLogged := true,
        flags := flags, disableBlocks := disableBlocks }

/-! ## Per-frame image state machine (`render_playback_window`, lines 81-127, 163-173) -/

/-- Observable effects of the image-handling part of one render pass:
the image state afterwards, the rectangles passed to `clear_area` in order,
the paint-call outcome when `render_playback_cover_image` was called, and
whether the skip-marking loop over the cover rectangle ran. -/
structure StepResult where
  info : ImageRenderInfo
  clears : List Rect
  paint : Option PaintOutcome
  skipMarked : Bool
deriving DecidableEq, Repr

/-- The `if let Some(url) = url` branch of `render_playback_window`
(lines 81-127).  When the tracked URL or rectangle differs from the target,
the tracked state is first replaced by the new `(url, rect, rendered := false)`
(lines 85-89) and only then are the two `clear_area` calls made (lines 98-103);
the first one reads `ui.last_cover_image_render_info.render_area`, which at
that point already holds the new rectangle.  Otherwise, when `rendered` is
still false the paint is attempted (line 106), and in either case the
skip-marking loop runs over the cover rectangle (lines 117-125). -/
def stepImage (sf tempOk cached : Bool) (override : Option String) (env : Env)
    (paintOk : Bool) (info : ImageRenderInfo) (u : String) (coverRect : Rect) : StepResult :=
  if info.url ≠ u ∨ info.render_area ≠ coverRect then
    let newInfo : ImageRenderInfo := ⟨u, coverRect, false⟩
    { info := newInfo, clears := [newInfo.render_area, coverRect],
      paint := none, skipMarked := false }
  else if info.rendered = false then
    let po := render_playback_cover_image sf tempOk cached override env paintOk info
    { info := po.info, clears := [], paint := some po, skipMarked := true }
  else
    { info := info, clears := [], paint := none, skipMarked := true }

/-- What the current playback resolves to for the image logic: no playback or
no playable item at all (the fall-through after line 159), an item whose
cover-image URL cannot be resolved (the `None` case of lines 73-80, for which
lines 81-127 do nothing), or a resolved URL. -/
inductive ResolvedItem
  | noItem
  | noUrl
  | url (u : String)
deriving DecidableEq, Repr

/-- The image-handling part of a whole `render_playback_window` pass.
With a resolved URL it runs `stepImage`; with an item lacking a URL the
`if let Some(url)` body is skipped entirely; with no playback item the
fall-through code (lines 163-173) clears the tracked rectangle and resets the
state to `ImageRenderInfo.default`, but only when `rendered` is true. -/
def renderPassImage (sf tempOk cached : Bool) (override : Option String) (env : Env)
    (paintOk : Bool) (item : ResolvedItem) (coverRect : Rect)
    (info : ImageRenderInfo) : StepResult :=
  match item with
  | .url u => stepImage sf tempOk cached override env paintOk info u coverRect
  | .noUrl => { info := info, clears := [], paint := none, skipMarked := false }
  | .noItem =>
    if info.rendered then
      { info := ImageRenderInfo.default, clears := [info.render_area],
        paint := none, skipMarked := false }
    else
      { info := info, clears := [], paint := none, skipMarked := false }

/-! ## Layout height (`split_rect_for_playback_window`, lines 571-602) -/

/-- The playback window height before the `+2` border padding, with the
`image` feature enabled (lines 573-581): the derived square-image height is
`(cover_img_width / 2).max(1).min(cover_img_length)` and the configured
height is raised to at least that plus one. -/
def playbackWindowHeight (coverImgWidth coverImgLength cfgHeight : Nat) : Nat :=
  max (min (max (coverImgWidth / 2) 1) coverImgLength + 1) cfgHeight

/-! ## Progress ratio (`render_playback_progress_bar`, lines 344-389) -/

/-- Exact model of an `f64` value arising from dividing two integers:
not-a-number, the two infinities, or a finite value (kept exact as a
rational; IEEE rounding of a finite quotient cannot change its sign or move
it across the clamp bounds `0` and `1`, so every property stated below is
invariant under the rounding). -/
inductive FVal
  | nan
  | pinf
  | ninf
  | fin (q : ℚ)
deriving DecidableEq, Repr

/-- IEEE semantics of `a as f64 / b as f64` for integers `a`, `b`:
`0.0 / 0.0` is NaN, `±a / 0.0` is `±inf`, otherwise the exact quotient. -/
def fdiv (a b : ℤ) : FVal :=
  if b = 0 then
    if a = 0 then .nan else if 0 < a then .pinf else .ninf
  else .fin ((a : ℚ) / (b : ℚ))

/-- Rust `f64::clamp(0.0, 1.0)`: NaN propagates, infinities clamp to the
bounds, finite values clamp to `[0,1]`. -/
def fclamp01 : FVal → FVal
  | .nan => .nan
  | .pinf => .fin 1
  | .ninf => .fin 0
  | .fin q => .fin (max 0 (min 1 q))

/-- The progress ratio of `render_playback_progress_bar` (line 353):
`(progress.num_seconds() as f64 / duration.num_seconds() as f64).clamp(0.0, 1.0)`
with the whole-second counts given as integers. -/
def progressRatioOf (progressSec durationSec : ℤ) : FVal :=
  fclamp01 (fdiv progressSec durationSec)

/-- Membership of the computed value in the closed interval `[0,1]`
(false for NaN and infinities). -/
def FVal.inUnit : FVal → Prop
  | .fin q => 0 ≤ q ∧ q ≤ 1
  | _ => False

/-! ## Frame buffer primitives (`clear_area`, lines 188-200; skip loop, lines 117-125) -/

/-- Terminal cell: its character, a tag for its style, and ratatui's `skip`
flag which prevents the compositor from overwriting the cell. -/
structure Cell where
  ch : Char
  styleApp : Bool
  skip : Bool
deriving DecidableEq, Repr

/-- Frame buffer: its area and the cell at each coordinate.  Coordinates
outside `area` have no valid cell; `cell_mut` returns `None` for them and the
source's `expect("invalid cell")` panics. -/
structure Buffer where
  area : Rect
  cells : Nat → Nat → Cell

/-- Ratatui `Buffer::cell_mut`: the cell at `(px, py)`, or `none` when the
position lies outside the buffer's area. -/
def Buffer.cellMut (b : Buffer) (px py : Nat) : Option Cell :=
  if b.area.containsPos px py then some (b.cells px py) else none

/-- Write one cell back into the buffer. -/
def Buffer.setCell (b : Buffer) (px py : Nat) (c : Cell) : Buffer :=
  { b with cells := fun qx qy => if qx = px ∧ qy = py then c else b.cells qx qy }

/-- The cells visited by the two nested loops
`for x in rect.left()..rect.right() { for y in rect.top()..rect.bottom()`
in source order (x outer, y inner). -/
def Rect.cellList (r : Rect) : List (Nat × Nat) :=
  (List.range' r.left (r.right - r.left)).flatMap fun px =>
    (List.range' r.top (r.bottom - r.top)).map fun py => (px, py)

/-- Apply `f` to each listed cell through `cell_mut`; a `none` from
`cell_mut` (the source's `expect("invalid cell")` panic) aborts the whole
operation with `none`. -/
def writeCells (f : Cell → Cell) : Buffer → List (Nat × Nat) → Option Buffer
  | b, [] => some b
  | b, (px, py) :: ps =>
    match b.cellMut px py with
    | none => none
    | some c => writeCells f (b.setCell px py (f c)) ps

/-- What `clear_area` does to one cell: `set_char(' ')` then
`set_style(theme.app())` (lines 196-197); the `skip` flag is untouched. -/
def clearCell (c : Cell) : Cell := { c with ch := ' ', styleApp := true }

/-- The source's `clear_area` (lines 188-200): blank every cell of the
rectangle with the app style, panicking (`none`) on any out-of-buffer cell. -/
def clear_area (b : Buffer) (r : Rect) : Option Buffer :=
  writeCells clearCell b r.cellList

/-- What the skip-marking loop does to one cell: `set_skip(true)`
(line 123); character and style are untouched. -/
def setSkipCell (c : Cell) : Cell := { c with skip := true }

/-- The skip-marking loop of `render_playback_window` (lines 117-125):
mark every cell of the cover rectangle as `skip`, panicking (`none`) on any
out-of-buffer cell. -/
def markSkipArea (b : Buffer) (r : Rect) : Option Buffer :=
  writeCells setSkipCell b r.cellList

/-- Whether every cell of `r` lies inside `outer` (the precondition for the
two loops above not to panic). -/
def Rect.allInside (outer r : Rect) : Bool :=
  r.cellList.all fun p => outer.containsPos p.1 p.2

/-! ## Format compiler (`construct_playback_text`, lines 202-342) -/

/-- rspotify `RepeatState`; `<&'static str>::from` yields its lowercase
display name. -/
inductive RepeatState
  | off
  | track
  | context
deriving DecidableEq, Repr

/-- Playback metadata read by the format compiler (the fields of
`PlaybackMetadata` this code uses). -/
structure PlaybackMetadata where
  is_playing : Bool
  repeat_state : RepeatState
  fake_track_repeat_state : Bool
  shuffle_state : Bool
  volume : Option Nat
  mute_state : Option Nat
  device_name : String

/-- Display name of a repeat state (`<&'static str>::from(repeat_state)`). -/
def RepeatState.display : RepeatState → String
  | .off => "off"
  | .track => "track"
  | .context => "context"

/-- Track fields used by the format compiler: name, explicit flag, artist
names, album name, and the `id.uri()` key for the liked-tracks lookup
(`None` when the track has no id). -/
structure TrackInfo where
  name : String
  explicit : Bool
  artists : List String
  album : String
  uri : Option String
deriving DecidableEq, Repr

/-- Episode fields used by the format compiler. -/
structure EpisodeInfo where
  name : String
  explicit : Bool
  publisher : String
  show_name : String
deriving DecidableEq, Repr

/-- rspotify `PlayableItem`, restricted to the fields this code reads. -/
inductive PlayableItem
  | track (t : TrackInfo)
  | episode (e : EpisodeInfo)

/-- Configuration values read by `construct_playback_text`. -/
structure AppConfig where
  playback_format : String
  play_icon : String
  pause_icon : String
  liked_icon : String
  playback_metadata_fields : List String

/-- Style tags for the spans the compiler produces (the `ui.theme.*()` call
used, or `raw` for `Span::raw` literal text). -/
inductive SpanStyle
  | raw
  | playbackStatus
  | like
  | playbackTrack
  | playbackArtists
  | playbackAlbum
  | playbackMetadata
deriving DecidableEq, Repr

/-- A styled span of text. -/
structure Span where
  text : String
  style : SpanStyle
deriving DecidableEq, Repr

/-- Rust `Vec::join` / `crate::utils::map_join`'s separator join: empty for
`[]`, the single element for `[a]`, otherwise elements interleaved with the
separator. -/
def joinSep (sep : String) : List String → String
  | [] => ""
  | [a] => a
  | a :: b :: bs => a ++ sep ++ joinSep sep (b :: bs)

/-- Rust `Display` for `bool`. -/
def boolDisplay (b : Bool) : String := if b then "true" else "false"

/-- Format tokens produced by scanning the format string for matches of the
regex `\{.*?\}|\n` (line 218): the literal text between matches, a
brace-delimited placeholder (holding the text between the braces), or a
newline. -/
inductive FmtTok
  | lit (s : String)
  | brace (inner : String)
  | nl
deriving DecidableEq, Repr

/-- Scan for the `}` closing a lazy `\{.*?\}` match: the characters after
the opening brace up to the first `}`, provided no newline intervenes (`.`
does not match `\n`, so a newline before any `}` makes the match at this
position fail). -/
def findBrace : List Char → Option (List Char × List Char)
  | [] => none
  | c :: cs =>
    if c = '}' then some ([], cs)
    else if c = '\n' then none
    else
      match findBrace cs with
      | some (inner, rest) => some (c :: inner, rest)
      | none => none

/-- Flush the pending (reversed) literal characters as a `lit` token. -/
def flushLit (acc : List Char) (toks : List FmtTok) : List FmtTok :=
  if acc.isEmpty then toks else .lit (String.mk acc.reverse) :: toks

/-- Tokenizer for `\{.*?\}|\n` over the format string, leftmost match first:
a newline always matches; an opening brace matches lazily up to the first
`}` on the same line, and otherwise is ordinary literal text.  `fuel` only
serves termination and always exceeds the number of remaining characters. -/
def tokenizeFuel : Nat → List Char → List Char → List FmtTok
  | 0, _, acc => flushLit acc []
  | _ + 1, [], acc => flushLit acc []
  | fuel + 1, c :: cs, acc =>
    if c = '\n' then flushLit acc (.nl :: tokenizeFuel fuel cs [])
    else if c = '{' then
      match findBrace cs with
      | some (inner, rest) => flushLit acc (.brace (String.mk inner) :: tokenizeFuel fuel rest [])
      | none => tokenizeFuel fuel cs (c :: acc)
    else tokenizeFuel fuel cs (c :: acc)

/-- Tokenize a format string. -/
def tokenize (s : String) : List FmtTok := tokenizeFuel s.data.length s.data []

/-- The entry string the `{metadata}` loop pushes for one configured field
name (lines 316-324); unrecognized field names push nothing. -/
def metadataEntry (repeatValue shuffleValue volumeValue deviceName field : String) :
    Option String :=
  if field = "repeat" then some ("repeat: " ++ repeatValue)
  else if field = "shuffle" then some ("shuffle: " ++ shuffleValue)
  else if field = "volume" then some ("volume: " ++ volumeValue)
  else if field = "device" then some ("device: " ++ deviceName)
  else none

/-- The parts the `{metadata}` loop collects, in the configured field order. -/
def metadataParts (fields : List String)
    (repeatValue shuffleValue volumeValue deviceName : String) : List String :=
  fields.filterMap (metadataEntry repeatValue shuffleValue volumeValue deviceName)

/-- Resolution of one recognized placeholder to a styled span (the big match
of lines 229-330); `none` is the source's `continue` (the placeholder
contributes nothing).  `bidi` is `crate::ui::utils::to_bidi_string`
(bidirectional-text normalization, outside this file's source), kept as a
parameter; `saved` is the key set of `data.user_data.saved_tracks`. -/
def resolvePlaceholder (cfg : AppConfig) (saved : List String)
    (bidi : String → String) (playable : PlayableItem) (pb : PlaybackMetadata)
    (inner : String) : Option Span :=
  if inner = "status" then
    some ⟨if pb.is_playing then cfg.play_icon else cfg.pause_icon, .playbackStatus⟩
  else if inner = "liked" then
    match playable with
    | .track t =>
      match t.uri with
      | some uri => if saved.contains uri then some ⟨cfg.liked_icon, .like⟩ else none
      | none => none
    | .episode _ => none
  else if inner = "track" then
    match playable with
    | .track t =>
      some ⟨if t.explicit then bidi t.name ++ " (E)" else bidi t.name, .playbackTrack⟩
    | .episode e =>
      some ⟨if e.explicit then bidi e.name ++ " (E)" else bidi e.name, .playbackTrack⟩
  else if inner = "artists" then
    match playable with
    | .track t => some ⟨bidi (joinSep ", " t.artists), .playbackArtists⟩
    | .episode e => some ⟨e.publisher, .playbackArtists⟩
  else if inner = "album" then
    match playable with
    | .track t => some ⟨bidi t.album, .playbackAlbum⟩
    | .episode e => some ⟨bidi e.show_name, .playbackAlbum⟩
  else if inner = "metadata" then
    let repeatValue :=
      if pb.fake_track_repeat_state then "track (fake)" else pb.repeat_state.display
    let volumeValue :=
      match pb.mute_state with
      | some v => toString v ++ "% (muted)"
      | none => toString (pb.volume.getD 0) ++ "%"
    let parts := metadataParts cfg.playback_metadata_fields repeatValue
      (boolDisplay pb.shuffle_state) volumeValue pb.device_name
    some ⟨joinSep " | " parts, .playbackMetadata⟩
  else none

/-- Process the token stream into lines of spans: literals become raw spans,
a newline finalizes the current line (even when empty, as the source pushes
`Line::from(tmp)` unconditionally), a placeholder appends its span when it
resolves.  At the end a non-empty pending span list becomes a final line
(lines 337-339). -/
def buildLines (cfg : AppConfig) (saved : List String) (bidi : String → String)
    (playable : PlayableItem) (pb : PlaybackMetadata) :
    List FmtTok → List Span → List (List Span) → List (List Span)
  | [], spans, lines => if spans.isEmpty then lines else lines ++ [spans]
  | .lit s :: toks, spans, lines =>
    buildLines cfg saved bidi playable pb toks (spans ++ [⟨s, .raw⟩]) lines
  | .nl :: toks, spans, lines =>
    buildLines cfg saved bidi playable pb toks [] (lines ++ [spans])
  | .brace inner :: toks, spans, lines =>
    match resolvePlaceholder cfg saved bidi playable pb inner with
    | some sp => buildLines cfg saved bidi playable pb toks (spans ++ [sp]) lines
    | none => buildLines cfg saved bidi playable pb toks spans lines

/-- The format compiler `construct_playback_text` (lines 202-342): tokenize
the configured format string and resolve the tokens against the playback
state into styled lines. -/
def construct_playback_text (cfg : AppConfig) (saved : List String)
    (bidi : String → String) (playable : PlayableItem) (pb : PlaybackMetadata) :
    List (List Span) :=
  buildLines cfg saved bidi playable pb (tokenize cfg.playback_format) [] []

/-- The rendered text of one line: its span texts concatenated in order. -/
def lineText (spans : List Span) : String :=
  (spans.map Span.text).foldl (· ++ ·) ""

/-! ## Concrete playback snapshot for the format-compiler example -/

/-- Track named `"Foo"`, explicit, with artists `["A", "B"]`. -/
def track7 : TrackInfo := ⟨"Foo", true, ["A", "B"], "Album", some "spotify:track:foo"⟩

/-- Playback metadata: playing, repeat off (not fake), shuffle off,
volume 50, not muted, device `"Dev"`. -/
def pb7 : PlaybackMetadata := ⟨true, .off, false, false, some 50, none, "Dev"⟩

/-- Configuration with the example format string and a given
metadata-field list. -/
def cfg7 (fields : List String) : AppConfig :=
  ⟨"{track} - {artists}\n{metadata}", ">", "#", "<3", fields⟩

/-! ## Theorems -/

/-- C1: the claim states that when the resolved URL or the target rectangle
differs from the tracked state, the render pass clears both the previously
tracked (old) rectangle and the new target rectangle.  The code updates the
tracked state *before* the two `clear_area` calls, so both calls receive the
new rectangle and the old tracked rectangle `(0,0,5,5)` is never cleared —
contradicting the code's own comment at line 96 ("clear the image's both new
and old areas").  The tracked state is updated to the new `(url, rect)` with
`rendered = false` and no paint is attempted that frame, as the claim says. -/
theorem c1_clear_uses_updated_area :
    stepImage true true true none ⟨false, "", "", false⟩ true
        ⟨"u", ⟨0, 0, 5, 5⟩, true⟩ "u" ⟨10, 0, 5, 5⟩ =
      { info := ⟨"u", ⟨10, 0, 5, 5⟩, false⟩,
        clears := [⟨10, 0, 5, 5⟩, ⟨10, 0, 5, 5⟩],
        paint := none, skipMarked := false } ∧
    (⟨0, 0, 5, 5⟩ : Rect) ∉
      (stepImage true true true none ⟨false, "", "", false⟩ true
        ⟨"u", ⟨0, 0, 5, 5⟩, true⟩ "u" ⟨10, 0, 5, 5⟩).clears := by
  decide

/-- C2 counterexample: with the `sixel` feature compiled in, the override
`"bogus"` selects the sixel flags, whereas auto-detection in an empty
environment selects no protocol at all — so an unrecognized override does
not fall through to environment-based auto-detection. -/
theorem c2_unrecognized_override_not_autodetect :
    selectProtocol true (some "bogus") ⟨false, "", "", false⟩ = ⟨false, false, true⟩ ∧
    selectProtocol true none ⟨false, "", "", false⟩ = ⟨false, false, false⟩ ∧
    selectProtocol true (some "bogus") ⟨false, "", "", false⟩ ≠
      selectProtocol true none ⟨false, "", "", false⟩ := by
  decide

/-- C2 (amended): overrides `kitty`, `iterm` and — when the `sixel` feature
is compiled in — `sixel` are honored exactly, case-insensitively; any other
override value selects sixel when the feature is compiled in and kitty
otherwise, independent of the environment; an absent override uses
environment-based auto-detection. -/
theorem c2_protocol_override_amended (sf : Bool) (env : Env) (p : String) :
    (toLowerStr p = "kitty" → selectProtocol sf (some p) env = ⟨true, false, false⟩) ∧
    (toLowerStr p = "iterm" → selectProtocol sf (some p) env = ⟨false, true, false⟩) ∧
    (toLowerStr p = "sixel" → sf = true →
      selectProtocol sf (some p) env = ⟨false, false, true⟩) ∧
    (toLowerStr p ∉ (["kitty", "iterm"] : List String) →
      selectProtocol sf (some p) env =
        if sf then ⟨false, false, true⟩ else ⟨true, false, false⟩) ∧
    selectProtocol sf none env = autoDetect sf env := by
  refine ⟨fun h => ?_, fun h => ?_, fun h hs => ?_, fun h => ?_, rfl⟩
  · simp [selectProtocol, h]
  · simp [selectProtocol, h]
  · simp [selectProtocol, h, hs]
  · simp only [List.mem_cons, List.not_mem_nil, or_false, not_or] at h
    obtain ⟨h1, h2⟩ := h
    cases sf <;> simp [selectProtocol, h1, h2]

/-- C2 witness: the amended statement at concrete inputs. -/
theorem c2_protocol_override_amended_witness :
    selectProtocol true (some "KiTTy") ⟨false, "", "", false⟩ = ⟨true, false, false⟩ ∧
    selectProtocol false (some "Iterm") ⟨false, "", "", false⟩ = ⟨false, true, false⟩ ∧
    selectProtocol true (some "SIXEL") ⟨false, "", "", false⟩ = ⟨false, false, true⟩ ∧
    selectProtocol false (some "weird") ⟨false, "", "", false⟩ = ⟨true, false, false⟩ :=
  ⟨(c2_protocol_override_amended true ⟨false, "", "", false⟩ "KiTTy").1 (by decide),
   (c2_protocol_override_amended false ⟨false, "", "", false⟩ "Iterm").2.1 (by decide),
   (c2_protocol_override_amended true ⟨false, "", "", false⟩ "SIXEL").2.2.1 (by decide) rfl,
   by
    have h := (c2_protocol_override_amended false ⟨false, "", "", false⟩ "weird").2.2.2.1
      (by decide)
    simpa using h⟩

/-- C3 counterexample: with no override and an environment matching neither a
sixel-capable terminal nor Ghostty nor a multiplexer, no protocol flag is
selected, yet the paint primitive (`viuer::print`) is still invoked for a
cached image — the cover image is not omitted from the frame by this code. -/
theorem c3_paint_invoked_when_no_protocol :
    autoDetect true ⟨false, "", "", false⟩ = ⟨false, false, false⟩ ∧
    (render_playback_cover_image true true true none ⟨false, "", "", false⟩ true
      ⟨"u", ⟨0, 0, 5, 5⟩, false⟩).paintInvoked = true ∧
    (render_playback_cover_image true true true none ⟨false, "", "", false⟩ true
      ⟨"u", ⟨0, 0, 5, 5⟩, false⟩).flags = ⟨false, false, false⟩ := by
  decide

/-- C3 (amended): when no override is configured and auto-detection matches
nothing, no protocol flag is set and the block-glyph fallback is not
disabled, but `viuer::print` is still invoked (with all protocol flags
false, leaving the painter's own detection and fallback in force). -/
theorem c3_no_protocol_amended (sf : Bool) (env : Env) (paintOk : Bool)
    (info : ImageRenderInfo) (h : autoDetect sf env = ⟨false, false, false⟩) :
    (render_playback_cover_image sf true true none env paintOk info).flags =
      ⟨false, false, false⟩ ∧
    (render_playback_cover_image sf true true none env paintOk info).disableBlocks = false ∧
    (render_playback_cover_image sf true true none env paintOk info).paintInvoked = true := by
  cases paintOk <;> simp [render_playback_cover_image, selectProtocol, h]

/-- C3 witness: the amended statement at a concrete empty environment. -/
theorem c3_no_protocol_amended_witness :
    (render_playback_cover_image true true true none ⟨false, "", "", false⟩ true
      ⟨"u", ⟨0, 0, 5, 5⟩, false⟩).flags = ⟨false, false, false⟩ ∧
    (render_playback_cover_image true true true none ⟨false, "", "", false⟩ true
      ⟨"u", ⟨0, 0, 5, 5⟩, false⟩).disableBlocks = false ∧
    (render_playback_cover_image true true true none ⟨false, "", "", false⟩ true
      ⟨"u", ⟨0, 0, 5, 5⟩, false⟩).paintInvoked = true :=
  c3_no_protocol_amended true ⟨false, "", "", false⟩ true ⟨"u", ⟨0, 0, 5, 5⟩, false⟩
    (by decide)

/-- C4 counterexample: with a playback item present whose cover URL does not
resolve and a tracked state with `rendered = true`, the render pass clears
nothing and leaves the tracked state unchanged — it neither clears the last
rendered rectangle nor resets the state to the idle default. -/
theorem c4_no_url_leaves_state :
    renderPassImage true true true none ⟨false, "", "", false⟩ true .noUrl ⟨2, 2, 3, 3⟩
        ⟨"u", ⟨0, 0, 5, 5⟩, true⟩ =
      { info := ⟨"u", ⟨0, 0, 5, 5⟩, true⟩, clears := [], paint := none,
        skipMarked := false } ∧
    (⟨"u", ⟨0, 0, 5, 5⟩, true⟩ : ImageRenderInfo) ≠ ImageRenderInfo.default := by
  decide

/-- C4 (amended): the clear-once-and-reset-to-idle behaviour belongs to the
case where no playback item is present at all: there, if `rendered` is true
the last rendered rectangle is cleared exactly once and the state is reset
to the default, and otherwise nothing happens.  When an item is present but
its cover URL cannot be resolved, the render pass leaves the tracked state
untouched and clears nothing. -/
theorem c4_idle_clear_amended (sf tempOk cached : Bool) (override : Option String)
    (env : Env) (paintOk : Bool) (coverRect : Rect) (info : ImageRenderInfo) :
    renderPassImage sf tempOk cached override env paintOk .noUrl coverRect info =
      { info := info, clears := [], paint := none, skipMarked := false } ∧
    (info.rendered = true →
      renderPassImage sf tempOk cached override env paintOk .noItem coverRect info =
        { info := ImageRenderInfo.default, clears := [info.render_area],
          paint := none, skipMarked := false }) ∧
    (info.rendered = false →
      renderPassImage sf tempOk cached override env paintOk .noItem coverRect info =
        { info := info, clears := [], paint := none, skipMarked := false }) := by
  refine ⟨rfl, fun h => ?_, fun h => ?_⟩ <;> simp [renderPassImage, h]

/-- C4 witness: the amended statement at concrete inputs. -/
theorem c4_idle_clear_amended_witness :
    renderPassImage true true true none ⟨false, "", "", false⟩ true .noItem ⟨2, 2, 3, 3⟩
        ⟨"u", ⟨0, 0, 5, 5⟩, true⟩ =
      { info := ImageRenderInfo.default, clears := [⟨0, 0, 5, 5⟩], paint := none,
        skipMarked := false } :=
  (c4_idle_clear_amended true true true none ⟨false, "", "", false⟩ true ⟨2, 2, 3, 3⟩
    ⟨"u", ⟨0, 0, 5, 5⟩, true⟩).2.1 rfl

/-- C5 counterexample: with cover image width 5, length 10 and configured
panel height 1, the layout height before borders is 3, which is below
`ceil(5 / 2) + 1 = 4` — the code uses the floor of `width / 2` (also capped
by the configured image length), not the ceiling. -/
theorem c5_height_below_ceil :
    playbackWindowHeight 5 10 1 = 3 ∧ playbackWindowHeight 5 10 1 < (5 + 1) / 2 + 1 := by
  decide

/-- C5 (amended): for every configured image width, image length and panel
height, the layout height before the `+2` border padding is at least the
derived square-image height — `floor(width / 2)` clamped below by 1 and
above by the configured image length — plus one. -/
theorem c5_height_amended (w len h : Nat) :
    min (max (w / 2) 1) len + 1 ≤ playbackWindowHeight w len h :=
  le_max_left _ _

/-- C6 counterexample: at elapsed = 0 and total = 0 (both satisfying
`0 ≤ elapsed` and `0 ≤ total`), the division `0.0 / 0.0` yields NaN, the
clamp propagates it, and the computed ratio does not lie in `[0, 1]`. -/
theorem c6_zero_zero_nan :
    progressRatioOf 0 0 = FVal.nan ∧ ¬ (progressRatioOf 0 0).inUnit := by
  refine ⟨by simp [progressRatioOf, fdiv, fclamp01], ?_⟩
  simp [progressRatioOf, fdiv, fclamp01, FVal.inUnit]

/-- C6 (amended): for every pair of whole-second counts except
elapsed = total = 0, the computed ratio equals
`clamp(elapsed / total, 0, 1)` (this is definitional) and lies in the closed
interval `[0, 1]`; this covers elapsed negative, elapsed greater than total,
and total = 0 with elapsed nonzero (the quotient is then `±inf` and clamps
to the corresponding bound).  Only elapsed = total = 0 yields NaN. -/
theorem c6_ratio_in_unit_amended (e t : ℤ) (h : ¬ (e = 0 ∧ t = 0)) :
    (progressRatioOf e t).inUnit := by
  unfold progressRatioOf fdiv
  by_cases ht : t = 0
  · have he : ¬ e = 0 := fun he => h ⟨he, ht⟩
    by_cases hp : 0 < e <;> simp [ht, he, hp, fclamp01, FVal.inUnit]
  · simp only [ht, if_false, fclamp01, FVal.inUnit]
    exact ⟨le_max_left 0 _, max_le zero_le_one (min_le_left 1 _)⟩

/-- C6 witness: the amended statement at elapsed 3, total 7. -/
theorem c6_ratio_in_unit_amended_witness :
    ¬ ((3 : ℤ) = 0 ∧ (7 : ℤ) = 0) ∧ (progressRatioOf 3 7).inUnit :=
  ⟨by decide, c6_ratio_in_unit_amended 3 7 (by decide)⟩

/-- C8: when the paint call fails, `render_playback_cover_image` logs a
warning, returns the error (the frame continues; the caller only logs it),
and leaves the tracked state unchanged — in particular `rendered` stays
false, so on the next frame with the same URL and rectangle the paint is
attempted again; `rendered` becomes true exactly when the temp-file cleanup
succeeded, the image was cached, and the paint succeeded. -/
theorem c8_paint_failure_handling :
    ∀ (sf : Bool) (override : Option String) (env : Env) (info : ImageRenderInfo)
      (u : String) (r : Rect),
      (render_playback_cover_image sf true true override env false info).paintInvoked = true ∧
      (render_playback_cover_image sf true true override env false info).warnLogged = true ∧
      (render_playback_cover_image sf true true override env false info).ok = false ∧
      (render_playback_cover_image sf true true override env false info).info = info ∧
      (∀ tempOk cached paintOk : Bool,
        (render_playback_cover_image sf tempOk cached override env paintOk info).info.rendered
          = (info.rendered || (tempOk && cached && paintOk))) ∧
      (stepImage sf true true override env false ⟨u, r, false⟩ u r).info = ⟨u, r, false⟩ ∧
      (stepImage sf true true override env false ⟨u, r, false⟩ u r).clears = [] ∧
      (stepImage sf true true override env false ⟨u, r, false⟩ u r).paint.isSome = true ∧
      (stepImage sf true true override env false
          ((stepImage sf true true override env false ⟨u, r, false⟩ u r).info) u r
        ).paint.isSome = true := by
  intro sf override env info u r
  refine ⟨rfl, rfl, rfl, rfl, ?_, ?_, ?_, ?_, ?_⟩
  · intro tempOk cached paintOk
    cases tempOk <;> cases cached <;> cases paintOk <;>
      simp [render_playback_cover_image]
  all_goals simp [stepImage, render_playback_cover_image]

/-- C9: a second render pass with the same URL and target rectangle, after a
first pass that ended with a successful paint (`rendered = true`), performs
no clear, attempts no paint, and leaves the tracked state exactly as the
first pass left it (the skip-marking of the cover rectangle still runs, as
it must every frame). -/
theorem c9_second_pass_noop (sf : Bool) (override : Option String) (env : Env)
    (info : ImageRenderInfo) (u : String) (r : Rect)
    (h : (stepImage sf true true override env true info u r).info.rendered = true) :
    stepImage sf true true override env true
        ((stepImage sf true true override env true info u r).info) u r =
      { info := (stepImage sf true true override env true info u r).info,
        clears := [], paint := none, skipMarked := true } := by
  rcases Decidable.em (info.url ≠ u ∨ info.render_area ≠ r) with hm | hm
  · rw [stepImage, if_pos hm] at h
    simp at h
  · push_neg at hm
    obtain ⟨hu, hr⟩ := hm
    rcases Bool.eq_false_or_eq_true info.rendered with hrd | hrd <;>
      simp [stepImage, render_playback_cover_image, hu, hr, hrd]

/-- C9 witness: the statement at concrete inputs, where the first pass
paints successfully. -/
theorem c9_second_pass_noop_witness :
    (stepImage true true true none ⟨false, "", "", false⟩ true
        ⟨"u", ⟨0, 0, 4, 2⟩, false⟩ "u" ⟨0, 0, 4, 2⟩).info.rendered = true ∧
    stepImage true true true none ⟨false, "", "", false⟩ true
        ((stepImage true true true none ⟨false, "", "", false⟩ true
          ⟨"u", ⟨0, 0, 4, 2⟩, false⟩ "u" ⟨0, 0, 4, 2⟩).info) "u" ⟨0, 0, 4, 2⟩ =
      { info := (stepImage true true true none ⟨false, "", "", false⟩ true
          ⟨"u", ⟨0, 0, 4, 2⟩, false⟩ "u" ⟨0, 0, 4, 2⟩).info,
        clears := [], paint := none, skipMarked := true } :=
  ⟨by decide,
   c9_second_pass_noop true none ⟨false, "", "", false⟩ ⟨"u", ⟨0, 0, 4, 2⟩, false⟩
     "u" ⟨0, 0, 4, 2⟩ (by decide)⟩

/-- Helper: when every listed cell lies in the buffer's area, the cell-writing
loop succeeds, preserves the area, establishes any property `Q` guaranteed by
the per-cell update on every listed cell, and leaves other cells unchanged. -/
theorem writeCells_some (f : Cell → Cell) (Q : Cell → Prop) (hf : ∀ c, Q (f c)) :
    ∀ (ps : List (Nat × Nat)) (b : Buffer),
      (∀ p ∈ ps, b.area.containsPos p.1 p.2 = true) →
      ∃ b', writeCells f b ps = some b' ∧ b'.area = b.area ∧
        (∀ p ∈ ps, Q (b'.cells p.1 p.2)) ∧
        (∀ qx qy, (qx, qy) ∉ ps → b'.cells qx qy = b.cells qx qy) := by
  intro ps
  induction ps with
  | nil =>
    intro b _
    exact ⟨b, rfl, rfl, by simp, fun _ _ _ => rfl⟩
  | cons p ps ih =>
    intro b hin
    obtain ⟨px, py⟩ := p
    have hc : b.area.containsPos px py = true :=
      hin (px, py) (List.mem_cons_self _ _)
    have hcm : b.cellMut px py = some (b.cells px py) := by
      simp [Buffer.cellMut, hc]
    have hin1 : ∀ q ∈ ps,
        (b.setCell px py (f (b.cells px py))).area.containsPos q.1 q.2 = true :=
      fun q hq => hin q (List.mem_cons_of_mem _ hq)
    obtain ⟨b', hw, harea, hQ, hout⟩ := ih (b.setCell px py (f (b.cells px py))) hin1
    refine ⟨b', ?_, harea, ?_, ?_⟩
    · rw [writeCells, hcm]
      exact hw
    · intro q hq
      obtain ⟨qx, qy⟩ := q
      rcases List.mem_cons.mp hq with heq | hmem
      · obtain ⟨h1, h2⟩ := Prod.mk.injEq .. ▸ heq
        subst h1; subst h2
        by_cases hqps : (qx, qy) ∈ ps
        · exact hQ _ hqps
        · rw [hout qx qy hqps]
          simp only [Buffer.setCell, and_self, if_pos]
          exact hf _
      · exact hQ _ hmem
    · intro qx qy hq
      have h1 : (qx, qy) ∉ ps := fun h => hq (List.mem_cons_of_mem _ h)
      have h2 : ¬ (qx = px ∧ qy = py) := by
        rintro ⟨rfl, rfl⟩
        exact hq (by simp)
      rw [hout qx qy h1]
      simp [Buffer.setCell, h2]

/-- Helper: a single listed cell outside the buffer's area makes the
cell-writing loop fail (the source panics at `expect("invalid cell")`). -/
theorem writeCells_none (f : Cell → Cell) :
    ∀ (ps : List (Nat × Nat)) (b : Buffer) (p : Nat × Nat),
      p ∈ ps → b.area.containsPos p.1 p.2 = false → writeCells f b ps = none := by
  intro ps
  induction ps with
  | nil => intro b p hp; exact absurd hp (List.not_mem_nil p)
  | cons q ps ih =>
    intro b p hp hcf
    obtain ⟨qx, qy⟩ := q
    by_cases hch : b.area.containsPos qx qy = true
    · have hcm : b.cellMut qx qy = some (b.cells qx qy) := by
        simp [Buffer.cellMut, hch]
      rw [writeCells, hcm]
      rcases List.mem_cons.mp hp with heq | hmem
      · exfalso
        rw [heq] at hcf
        simp [hcf] at hch
      · exact ih _ p hmem hcf
    · have hcm : b.cellMut qx qy = none := by
        simp [Buffer.cellMut, Bool.not_eq_true _ ▸ hch]
      rw [writeCells, hcm]

/-- C10: clearing an area and marking the cover-image cells as skip are total
exactly under the precondition that every cell of the rectangle lies inside
the frame buffer: then `clear_area` blanks every cell of the rectangle with
the app style and the skip loop sets `skip := true` on every cell of the
rectangle (cells outside the rectangle untouched, area preserved), while a
rectangle containing any cell outside the buffer — such as a stored
`render_area` after the terminal shrank — makes both loops hit
`expect("invalid cell")`, modelled as `none` (a panic, not an error
return). -/
theorem c10_clear_totality (b : Buffer) (r : Rect) :
    (Rect.allInside b.area r = true →
      ∃ b', clear_area b r = some b' ∧ b'.area = b.area ∧
        (∀ p ∈ r.cellList,
          (b'.cells p.1 p.2).ch = ' ' ∧ (b'.cells p.1 p.2).styleApp = true) ∧
        (∀ qx qy, (qx, qy) ∉ r.cellList → b'.cells qx qy = b.cells qx qy)) ∧
    (Rect.allInside b.area r = true →
      ∃ b', markSkipArea b r = some b' ∧ b'.area = b.area ∧
        (∀ p ∈ r.cellList, (b'.cells p.1 p.2).skip = true) ∧
        (∀ qx qy, (qx, qy) ∉ r.cellList → b'.cells qx qy = b.cells qx qy)) ∧
    (Rect.allInside b.area r = false →
      clear_area b r = none ∧ markSkipArea b r = none) := by
  refine ⟨fun h => ?_, fun h => ?_, fun h => ?_⟩
  · have hin : ∀ p ∈ r.cellList, b.area.containsPos p.1 p.2 = true :=
      List.all_eq_true.mp h
    exact writeCells_some clearCell (fun c => c.ch = ' ' ∧ c.styleApp = true)
      (fun _ => ⟨rfl, rfl⟩) r.cellList b hin
  · have hin : ∀ p ∈ r.cellList, b.area.containsPos p.1 p.2 = true :=
      List.all_eq_true.mp h
    exact writeCells_some setSkipCell (fun c => c.skip = true)
      (fun _ => rfl) r.cellList b hin
  · obtain ⟨p, hp, hpf⟩ := List.all_eq_false.mp h
    have hpf' : b.area.containsPos p.1 p.2 = false := by
      simpa using hpf
    exact ⟨writeCells_none clearCell r.cellList b p hp hpf',
      writeCells_none setSkipCell r.cellList b p hp hpf'⟩

/-- C10 witness: a 4x4 buffer; the rectangle (1,1,2,2) lies inside and both
operations succeed, while (3,3,3,3) reaches outside and both panic. -/
theorem c10_clear_totality_witness :
    (∃ b', clear_area ⟨⟨0, 0, 4, 4⟩, fun _ _ => ⟨'a', false, false⟩⟩ ⟨1, 1, 2, 2⟩ = some b' ∧
      b'.area = (⟨⟨0, 0, 4, 4⟩, fun _ _ => ⟨'a', false, false⟩⟩ : Buffer).area ∧
      (∀ p ∈ (⟨1, 1, 2, 2⟩ : Rect).cellList,
        (b'.cells p.1 p.2).ch = ' ' ∧ (b'.cells p.1 p.2).styleApp = true) ∧
      (∀ qx qy, (qx, qy) ∉ (⟨1, 1, 2, 2⟩ : Rect).cellList →
        b'.cells qx qy = (⟨⟨0, 0, 4, 4⟩, fun _ _ => ⟨'a', false, false⟩⟩ : Buffer).cells qx qy)) ∧
    (clear_area ⟨⟨0, 0, 4, 4⟩, fun _ _ => ⟨'a', false, false⟩⟩ ⟨3, 3, 3, 3⟩ = none ∧
      markSkipArea ⟨⟨0, 0, 4, 4⟩, fun _ _ => ⟨'a', false, false⟩⟩ ⟨3, 3, 3, 3⟩ = none) :=
  ⟨(c10_clear_totality ⟨⟨0, 0, 4, 4⟩, fun _ _ => ⟨'a', false, false⟩⟩ ⟨1, 1, 2, 2⟩).1
      (by decide),
   (c10_clear_totality ⟨⟨0, 0, 4, 4⟩, fun _ _ => ⟨'a', false, false⟩⟩ ⟨3, 3, 3, 3⟩).2.2
      (by decide)⟩

/-- Helper: with the example playback values, the metadata entry string
determines the field name, so an entry of a field outside the configured
list cannot coincide with an entry the loop produced. -/
theorem metadataEntry_inj7 (a b e : String)
    (h1 : metadataEntry "off" "false" "50%" "Dev" a = some e)
    (h2 : metadataEntry "off" "false" "50%" "Dev" b = some e) : a = b := by
  unfold metadataEntry at h1 h2
  split_ifs at h1 h2 <;> simp_all <;>
    exact absurd (h1.trans h2.symm) (by decide)

/-- Helper: a member of the joined list occurs as a contiguous substring of
the join. -/
theorem mem_joinSep_sub (sep : String) :
    ∀ (l : List String) (s : String), s ∈ l →
      ∃ pre post, (joinSep sep l).data = pre ++ s.data ++ post := by
  intro l
  induction l with
  | nil => simp
  | cons a as ih =>
    intro s hs
    rcases List.mem_cons.mp hs with h | h
    · subst h
      cases as with
      | nil => exact ⟨[], [], by simp [joinSep]⟩
      | cons b bs =>
        refine ⟨[], (sep ++ joinSep sep (b :: bs)).data, ?_⟩
        simp [joinSep, String.data_append]
    · cases as with
      | nil => simp at h
      | cons b bs =>
        obtain ⟨pre, post, hp⟩ := ih s h
        refine ⟨(a ++ sep).data ++ pre, post, ?_⟩
        simp [joinSep, String.data_append, hp]

/-- C7: for the format string `"{track} - {artists}\n{metadata}"` and a
playback snapshot with a track named `"Foo"`, explicit, artists
`["A", "B"]`, repeat off, shuffle off, volume 50 and device `"Dev"`, the
compiler produces exactly two lines: line 1 renders `"Foo (E) - A, B"`, and
line 2 is the `" | "`-join of exactly the entries of the configured
metadata-field list (in its order), contains `"volume: 50%"` whenever
`"volume"` is configured, and contains no entry of any field absent from
the configured list.  The bidirectional normalization (outside this file's
source) is a parameter assumed to fix the two ASCII names involved. -/
theorem c7_format_example (bidi : String → String) (fields saved : List String)
    (hFoo : bidi "Foo" = "Foo") (hAB : bidi "A, B" = "A, B")
    (hv : "volume" ∈ fields) :
    construct_playback_text (cfg7 fields) saved bidi (.track track7) pb7 =
      [[⟨"Foo (E)", .playbackTrack⟩, ⟨" - ", .raw⟩, ⟨"A, B", .playbackArtists⟩],
       [⟨joinSep " | " (metadataParts fields "off" "false" "50%" "Dev"),
         .playbackMetadata⟩]] ∧
    lineText [⟨"Foo (E)", .playbackTrack⟩, ⟨" - ", .raw⟩, ⟨"A, B", .playbackArtists⟩] =
      "Foo (E) - A, B" ∧
    (∃ pre post,
      (joinSep " | " (metadataParts fields "off" "false" "50%" "Dev")).data =
        pre ++ ("volume: 50%").data ++ post) ∧
    (∀ f e, f ∉ fields → metadataEntry "off" "false" "50%" "Dev" f = some e →
      e ∉ metadataParts fields "off" "false" "50%" "Dev") := by
  refine ⟨?_, rfl, ?_, ?_⟩
  · have h1 : construct_playback_text (cfg7 fields) saved bidi (.track track7) pb7 =
        [[⟨bidi "Foo" ++ " (E)", .playbackTrack⟩, ⟨" - ", .raw⟩,
          ⟨bidi "A, B", .playbackArtists⟩],
         [⟨joinSep " | " (metadataParts fields "off" "false" "50%" "Dev"),
           .playbackMetadata⟩]] := rfl
    rw [h1, hFoo, hAB]
    rfl
  · exact mem_joinSep_sub " | " _ "volume: 50%"
      (List.mem_filterMap.mpr ⟨"volume", hv, by decide⟩)
  · intro f e hf he hmem
    obtain ⟨a, ha, hae⟩ := List.mem_filterMap.mp hmem
    exact hf (metadataEntry_inj7 a f e hae he ▸ ha)

/-- C7 witness: the statement at the identity normalization, configured
fields `["shuffle", "volume"]` and an empty liked-tracks set. -/
theorem c7_format_example_witness :
    construct_playback_text (cfg7 ["shuffle", "volume"]) [] (fun s => s)
        (.track track7) pb7 =
      [[⟨"Foo (E)", .playbackTrack⟩, ⟨" - ", .raw⟩, ⟨"A, B", .playbackArtists⟩],
       [⟨joinSep " | " (metadataParts ["shuffle", "volume"] "off" "false" "50%" "Dev"),
         .playbackMetadata⟩]] ∧
    lineText [⟨"Foo (E)", .playbackTrack⟩, ⟨" - ", .raw⟩, ⟨"A, B", .playbackArtists⟩] =
      "Foo (E) - A, B" ∧
    (∃ pre post,
      (joinSep " | "
        (metadataParts ["shuffle", "volume"] "off" "false" "50%" "Dev")).data =
        pre ++ ("volume: 50%").data ++ post) ∧
    (∀ f e, f ∉ (["shuffle", "volume"] : List String) →
      metadataEntry "off" "false" "50%" "Dev" f = some e →
      e ∉ metadataParts ["shuffle", "volume"] "off" "false" "50%" "Dev") :=
  c7_format_example (fun s => s) ["shuffle", "volume"] [] rfl rfl (by decide)

end SpotifyPlayer
